import Mathlib

/-!
Shallow embedding of `inav_msp_lib.rs` (`src/src/lib.rs`), an MSP
(multiwii serial protocol) transport layer for INAV flight controllers:
wire payload structs, the dataflash streaming reader (`FlashDataFile::read_chunk`),
the frame router (`process_route`), the write pump retry loop (`process_output`),
and the request/response facade (`flash_summary`, `set_mode_range`,
`get_mode_ranges`, `open_flash_data`).

Machine integers (`u8`, `u32`) are modelled as `Nat` with explicit `% 2^32`
where the Rust code performs wrapping `u32` arithmetic.  Asynchronous waits
(channel receive bounded by a timeout) are modelled by an explicit outcome
type: `timedOut` means the deadline elapsed with no value, `closed` means the
channel's send half was dropped, `value v` means `v` arrived in time.  A Rust
panic (`unwrap` on `Err`/`None`, out-of-bounds slice) is modelled as an
explicit error constructor.
-/

namespace InavMsp

/-- `2^32`, the modulus of Rust `u32` arithmetic. -/
def U32 : Nat := 4294967296

deriving instance DecidableEq for Except

/-- Payload of an MSP_DATAFLASH_READ request (`MspDataFlashRead` in lib.rs):
4-byte little-endian address plus 2-byte length. -/
structure MspDataFlashRead where
  read_address : Nat
  read_length : Nat
deriving DecidableEq

/-- One reply to a dataflash chunk request (`MspDataFlashReply` in lib.rs). -/
structure MspDataFlashReply where
  read_address : Nat
  payload : List Nat
deriving DecidableEq

/-- Decoded MSP_DATAFLASH_SUMMARY reply (`MspDataFlashSummaryReply` in lib.rs). -/
structure MspDataFlashSummaryReply where
  supported : Bool
  ready : Bool
  sectors : Nat
  total_size_bytes : Nat
  used_size_bytes : Nat
deriving DecidableEq

/-- One 4-byte slot of the mode-ranges reply table (`MspModeRange` in lib.rs). -/
structure MspModeRange where
  box_id : Nat
  aux_channel_index : Nat
  start_step : Nat
  end_step : Nat
deriving DecidableEq

/-- Payload of an MSP_SET_MODE_RANGE request (`MspSetModeRange` in lib.rs). -/
structure MspSetModeRange where
  index : Nat
  mode_range : MspModeRange
deriving DecidableEq

/-- A decoded, index-tagged mode range returned to the caller
(`ModeRange` in lib.rs). -/
structure ModeRange where
  index : Nat
  box_id : Nat
  aux_channel_index : Nat
  start_step : Nat
  end_step : Nat
deriving DecidableEq

/-- The streaming reader session state (`FlashDataFile` in lib.rs); the
channel and parser handles carried by the Rust struct are modelled outside
the state (as event lists and reset counters in the trace). -/
structure FlashDataFile where
  used_size : Nat
  next_address : Nat
  received_address : Nat
deriving DecidableEq

/-- One outcome of awaiting the chunk channel with the 50 ms timeout inside
`read_chunk`: the deadline elapsed, the channel closed (`recv` returned
`None`), or a chunk reply arrived. -/
inductive ChunkEvent where
  | timeout
  | closed
  | reply (r : MspDataFlashReply)
deriving DecidableEq

/-- The result of a `read_chunk` call.  `pending` means the supplied event
list was exhausted while the loop was still awaiting the channel (the real
call would still be blocked). -/
inductive ReadChunkResult where
  | useAfterClose
  | disconnected
  | ok (payload : List Nat)
  | pending
deriving DecidableEq

/-- Observable trace of one `read_chunk` call: its result, the session state
afterwards, the chunk-read requests it sent (in order), and how many times it
reset the shared frame parser. -/
structure ReadChunkTrace where
  result : ReadChunkResult
  state : FlashDataFile
  requests : List MspDataFlashRead
  parser_resets : Nat
deriving DecidableEq

/-- The state update on an accepted chunk reply (lib.rs lines 127-129):
`received_address = packet.read_address;
 next_address = packet.read_address + packet.payload.len() as u32`.
The `as u32` cast truncates the length and the `u32` addition wraps,
hence the `% U32`. -/
def accept_reply (s : FlashDataFile) (r : MspDataFlashReply) : FlashDataFile :=
  { s with
      received_address := r.read_address,
      next_address := (r.read_address + r.payload.length % U32) % U32 }

/-- The payload returned for an accepted reply (lib.rs lines 136-140):
empty once `received_address >= used_size`, otherwise the reply's payload. -/
def accept_result (s : FlashDataFile) (r : MspDataFlashReply) : List Nat :=
  if (accept_reply s r).received_address ≥ s.used_size then [] else r.payload

/-- The request(s) sent at the top of one loop iteration of `read_chunk`
(lib.rs lines 103-117): a single `MspDataFlashRead` at `next_address` with
window `0x1000` when `next_address > received_address || next_address == 0`,
nothing otherwise. -/
def send_requests (s : FlashDataFile) : List MspDataFlashRead :=
  if s.next_address > s.received_address ∨ s.next_address = 0 then
    [⟨s.next_address, 0x1000⟩]
  else []

/-- The `loop` body of `read_chunk` (lib.rs lines 102-146), driven by the
list of await outcomes.  Each iteration first maybe-sends a request, then
consumes one event: a timeout resets the parser and loops; a closed channel
returns `disconnected`; a reply with `read_address >= next_address` is
accepted and returned; a stale reply (`read_address < next_address`) is
discarded and the loop continues. -/
def read_chunk_go (s : FlashDataFile) : List ChunkEvent → ReadChunkTrace
  | [] => ⟨ReadChunkResult.pending, s, send_requests s, 0⟩
  | ChunkEvent.closed :: _ => ⟨ReadChunkResult.disconnected, s, send_requests s, 0⟩
  | ChunkEvent.timeout :: rest =>
    let t := read_chunk_go s rest
    ⟨t.result, t.state, send_requests s ++ t.requests, t.parser_resets + 1⟩
  | ChunkEvent.reply r :: rest =>
    if r.read_address ≥ s.next_address then
      ⟨ReadChunkResult.ok (accept_result s r), accept_reply s r, send_requests s, 0⟩
    else
      let t := read_chunk_go s rest
      ⟨t.result, t.state, send_requests s ++ t.requests, t.parser_resets⟩

/-- `FlashDataFile::read_chunk` (lib.rs lines 97-147): fails with the
"use after close" error when `received_address >= used_size`, otherwise
runs the request/await loop. -/
def read_chunk (s : FlashDataFile) (evs : List ChunkEvent) : ReadChunkTrace :=
  if s.received_address ≥ s.used_size then
    ⟨ReadChunkResult.useAfterClose, s, [], 0⟩
  else read_chunk_go s evs

/-- Outcome of awaiting a reply channel under a timeout
(`future::timeout(d, chan.recv()).await`): the deadline elapsed with no
value, the channel closed (`recv` yielded `None`), or a value arrived in
time. -/
inductive RecvOutcome (α : Type) where
  | timedOut
  | closed
  | value (v : α)
deriving DecidableEq

/-- How a facade call ends when it does not produce a value: with the
`TimedOut` io error, or with a panic (the source `unwrap`s the `Option`
returned by `recv`, so a closed channel panics the calling task). -/
inductive FacadeError where
  | timedOut
  | panicked
deriving DecidableEq

/-- `INavMsp::flash_summary` (lib.rs lines 353-368) after the request frame
has been submitted: await the summary channel for 30 ms; a value is returned
as `Ok`, a timeout becomes the `TimedOut` error, a closed channel hits
`unwrap` and panics. -/
def flash_summary (o : RecvOutcome MspDataFlashSummaryReply) :
    Except FacadeError MspDataFlashSummaryReply :=
  match o with
  | RecvOutcome.timedOut => Except.error FacadeError.timedOut
  | RecvOutcome.closed => Except.error FacadeError.panicked
  | RecvOutcome.value v => Except.ok v

/-- The request payload built by `INavMsp::set_mode_range`
(lib.rs lines 372-380). -/
def set_mode_range_request (mode : ModeRange) : MspSetModeRange :=
  ⟨mode.index, ⟨mode.box_id, mode.aux_channel_index, mode.start_step, mode.end_step⟩⟩

/-- `INavMsp::set_mode_range` (lib.rs lines 370-397) after the request frame
has been submitted: await the ack channel for 30 ms. -/
def set_mode_range (_mode : ModeRange) (o : RecvOutcome Unit) :
    Except FacadeError Unit :=
  match o with
  | RecvOutcome.timedOut => Except.error FacadeError.timedOut
  | RecvOutcome.closed => Except.error FacadeError.panicked
  | RecvOutcome.value v => Except.ok v

/-- The `ModeRange` built from table slot `r` at slot index `i`
(lib.rs lines 423-429). -/
def modeRangeAt (i : Nat) (r : MspModeRange) : ModeRange :=
  ⟨i, r.box_id, r.aux_channel_index, r.start_step, r.end_step⟩

/-- The fold of `INavMsp::get_mode_ranges` (lib.rs lines 421-433): push a
slot, tagged with its enumeration index, exactly when
`start_step != 0 && end_step != 0`. -/
def mode_ranges_step (acc : List ModeRange) (ir : Nat × MspModeRange) :
    List ModeRange :=
  if ir.2.start_step ≠ 0 ∧ ir.2.end_step ≠ 0 then acc ++ [modeRangeAt ir.1 ir.2]
  else acc

/-- Decoding part of `INavMsp::get_mode_ranges` (lib.rs lines 417-435):
`ranges_replay.mode_ranges.iter().enumerate().fold(&mut valid_ranges, ...)`.
The 20-slot packed array is modelled as the list of its slots. -/
def get_mode_ranges_decode (mode_ranges : List MspModeRange) : List ModeRange :=
  mode_ranges.enum.foldl mode_ranges_step []

/-- Structural form of the mode-ranges fold: the tagged ranges of the slots
from index `i` on whose `start_step` and `end_step` are both nonzero.
Proved equal to `get_mode_ranges_decode` (at `i = 0`) below. -/
def rangesFrom : Nat → List MspModeRange → List ModeRange
  | _, [] => []
  | i, r :: rest =>
    if r.start_step ≠ 0 ∧ r.end_step ≠ 0 then modeRangeAt i r :: rangesFrom (i + 1) rest
    else rangesFrom (i + 1) rest

/-- `INavMsp::get_mode_ranges` (lib.rs lines 399-436) after the request frame
has been submitted: await the mode-ranges channel for 30 ms; on a value,
decode the 20-slot table. -/
def get_mode_ranges (o : RecvOutcome (List MspModeRange)) :
    Except FacadeError (List ModeRange) :=
  match o with
  | RecvOutcome.timedOut => Except.error FacadeError.timedOut
  | RecvOutcome.closed => Except.error FacadeError.panicked
  | RecvOutcome.value ranges_replay => Except.ok (get_mode_ranges_decode ranges_replay)

/-- `INavMsp::open_flash_data` (lib.rs lines 338-351): fetch the summary
itself, `unwrap` the result (panicking on a timeout error), and build the
session with `next_address = 0`, `received_address = 0` and
`used_size = summary.used_size_bytes`. -/
def open_flash_data (o : RecvOutcome MspDataFlashSummaryReply) :
    Except FacadeError FlashDataFile :=
  match flash_summary o with
  | Except.error _ => Except.error FacadeError.panicked
  | Except.ok summary => Except.ok ⟨summary.used_size_bytes, 0, 0⟩

/-- Outcome of one `serial.write(&output)` attempt in the write pump. -/
inductive WriteOutcome where
  | ok
  | errTimedOut
  | errOther
deriving DecidableEq

/-- Observable trace of the inner retry loop of `process_output` for one
frame: how many write attempts were consumed, how many 1 ms sleeps were
taken (one per timeout-class error), how many non-timeout errors were
reported via `eprintln`, and whether the loop has finished with this frame
(`finished = false` means the loop is still retrying and would consume
further attempts). -/
structure WriteLoopTrace where
  attempts : Nat
  sleeps : Nat
  reported : Nat
  finished : Bool
deriving DecidableEq

/-- The inner `loop` of `INavMsp::process_output` (lib.rs lines 322-331),
driven by the list of outcomes of successive `serial.write` calls:
`Ok` breaks out of the loop; a timeout-class error sleeps 1 ms and retries;
any other error is reported with `eprintln` and — since that match arm does
not `break` — the same write is also retried. -/
def write_until_success : List WriteOutcome → WriteLoopTrace
  | [] => ⟨0, 0, 0, false⟩
  | WriteOutcome.ok :: _ => ⟨1, 0, 0, true⟩
  | WriteOutcome.errTimedOut :: rest =>
    let t := write_until_success rest
    ⟨t.attempts + 1, t.sleeps + 1, t.reported, t.finished⟩
  | WriteOutcome.errOther :: rest =>
    let t := write_until_success rest
    ⟨t.attempts + 1, t.sleeps, t.reported + 1, t.finished⟩

/-- Modelled from the spec: the write-pump retry loop as claim C2 describes
it — "on other errors, report and move to the next frame (does not retry
non-timeout errors)" — i.e. a non-timeout error reports once and finishes
the frame after that single attempt.  Kept for comparison with
`write_until_success`, which is the loop the source actually implements. -/
def write_until_success_claimed : List WriteOutcome → WriteLoopTrace
  | [] => ⟨0, 0, 0, false⟩
  | WriteOutcome.ok :: _ => ⟨1, 0, 0, true⟩
  | WriteOutcome.errTimedOut :: rest =>
    let t := write_until_success_claimed rest
    ⟨t.attempts + 1, t.sleeps + 1, t.reported, t.finished⟩
  | WriteOutcome.errOther :: _ => ⟨1, 0, 1, true⟩

/-- Direction tag of an MSP packet (from the external
`multiwii_serial_protocol` crate). -/
inductive MspPacketDirection where
  | toFlightController
  | fromFlightController
deriving DecidableEq

/-- A decoded MSP frame (from the external `multiwii_serial_protocol`
crate): command code, direction, payload bytes. -/
structure MspPacket where
  cmd : Nat
  direction : MspPacketDirection
  data : List Nat
deriving DecidableEq

/-- `MspCommandCode::MSP_MODE_RANGES` (external crate; standard MSP code).
The routing logic only needs the four codes to be distinct. -/
def MSP_MODE_RANGES : Nat := 34

/-- `MspCommandCode::MSP_SET_MODE_RANGE` (external crate; standard MSP code). -/
def MSP_SET_MODE_RANGE : Nat := 35

/-- `MspCommandCode::MSP_DATAFLASH_SUMMARY` (external crate; standard MSP code). -/
def MSP_DATAFLASH_SUMMARY : Nat := 70

/-- `MspCommandCode::MSP_DATAFLASH_READ` (external crate; standard MSP code). -/
def MSP_DATAFLASH_READ : Nat := 71

/-- A `u32` from four little-endian bytes (`u32::from_le_bytes`). -/
def u32_le (b0 b1 b2 b3 : Nat) : Nat :=
  b0 + 256 * b1 + 65536 * b2 + 16777216 * b3

/-- Unpack consecutive 4-byte `MspModeRange` entries
(fields `box_id`, `aux_channel_index`, `start_step`, `end_step`, one byte
each, in declaration order); fails unless the byte count is a multiple
of 4. -/
def unpack_mode_range_list : List Nat → Option (List MspModeRange)
  | [] => some []
  | b0 :: b1 :: b2 :: b3 :: rest =>
    (unpack_mode_range_list rest).map (fun l => ⟨b0, b1, b2, b3⟩ :: l)
  | _ => none

/-- `MspModeRangesReplay::unpack_from_slice` (packed_struct): the 20-slot
table is exactly 80 bytes; any other length is a decode error. -/
def unpack_mode_ranges (data : List Nat) : Option (List MspModeRange) :=
  if data.length = 80 then unpack_mode_range_list data else none

/-- `MspDataFlashSummaryReply::unpack_from_slice` (packed_struct): 13 bytes —
one flag byte (msb0 numbering: bit 6 is `supported`, i.e. physical bit 1;
bit 7 is `ready`, i.e. physical bit 0) followed by three little-endian
`u32`s (`sectors`, `total_size_bytes`, `used_size_bytes`); any other length
is a decode error. -/
def unpack_summary : List Nat → Option MspDataFlashSummaryReply
  | [b, s0, s1, s2, s3, t0, t1, t2, t3, u0, u1, u2, u3] =>
    some ⟨b.testBit 1, b.testBit 0,
      u32_le s0 s1 s2 s3, u32_le t0 t1 t2 t3, u32_le u0 u1 u2 u3⟩
  | _ => none

/-- What a Rust panic inside the router task aborts on: `unwrap` of a failed
`unpack_from_slice`, or the out-of-bounds slice `&packet.data[..4]` on a
dataflash-read reply shorter than 4 bytes. -/
inductive RoutePanic where
  | modeRangesUnpack
  | summaryUnpack
  | chunkTooShort
deriving DecidableEq

/-- A value the router pushes to one of the per-command reply channels. -/
inductive RouteOutput where
  | modeRanges (rs : List MspModeRange)
  | setModeRangeAck
  | summary (s : MspDataFlashSummaryReply)
  | chunk (c : MspDataFlashReply)
deriving DecidableEq

/-- The MSP_MODE_RANGES arm of `process_route` (lib.rs lines 232-235):
`unpack_from_slice(..).unwrap()` — a decode failure panics the task. -/
def route_mode_ranges (p : MspPacket) : Except RoutePanic (List RouteOutput) :=
  if p.cmd = MSP_MODE_RANGES then
    match unpack_mode_ranges p.data with
    | none => Except.error RoutePanic.modeRangesUnpack
    | some rs => Except.ok [RouteOutput.modeRanges rs]
  else Except.ok []

/-- The MSP_SET_MODE_RANGE arm of `process_route` (lib.rs lines 237-240):
signal the ack without inspecting the payload. -/
def route_ack (p : MspPacket) : Except RoutePanic (List RouteOutput) :=
  if p.cmd = MSP_SET_MODE_RANGE then Except.ok [RouteOutput.setModeRangeAck]
  else Except.ok []

/-- The MSP_DATAFLASH_SUMMARY arm of `process_route` (lib.rs lines 242-245):
`unpack_from_slice(..).unwrap()` — a decode failure panics the task. -/
def route_summary (p : MspPacket) : Except RoutePanic (List RouteOutput) :=
  if p.cmd = MSP_DATAFLASH_SUMMARY then
    match unpack_summary p.data with
    | none => Except.error RoutePanic.summaryUnpack
    | some s => Except.ok [RouteOutput.summary s]
  else Except.ok []

/-- The MSP_DATAFLASH_READ arm of `process_route` (lib.rs lines 247-261):
split off the 4-byte little-endian address prefix; `&packet.data[..4]`
panics when the payload has fewer than 4 bytes. -/
def route_chunk (p : MspPacket) : Except RoutePanic (List RouteOutput) :=
  if p.cmd = MSP_DATAFLASH_READ then
    match p.data with
    | a0 :: a1 :: a2 :: a3 :: rest =>
      Except.ok [RouteOutput.chunk ⟨u32_le a0 a1 a2 a3, rest⟩]
    | _ => Except.error RoutePanic.chunkTooShort
  else Except.ok []

/-- Routing of a single inbound frame, the body of the `loop` in
`INavMsp::process_route` (lib.rs lines 222-265): frames not tagged
`FromFlightController` are skipped; otherwise the four command-code arms
run in source order, each possibly panicking. -/
def route_packet (p : MspPacket) : Except RoutePanic (List RouteOutput) :=
  if p.direction ≠ MspPacketDirection.fromFlightController then Except.ok []
  else
    match route_mode_ranges p with
    | Except.error e => Except.error e
    | Except.ok a =>
      match route_ack p with
      | Except.error e => Except.error e
      | Except.ok b =>
        match route_summary p with
        | Except.error e => Except.error e
        | Except.ok c =>
          match route_chunk p with
          | Except.error e => Except.error e
          | Except.ok d => Except.ok (a ++ b ++ c ++ d)

/-- The router task `INavMsp::process_route` (lib.rs lines 214-267) over a
finite inbound frame sequence: frames are routed in order; a panic while
routing one frame aborts the task, so no later frame is processed. -/
def process_route : List MspPacket → Except RoutePanic (List RouteOutput)
  | [] => Except.ok []
  | p :: rest =>
    match route_packet p with
    | Except.error e => Except.error e
    | Except.ok outs =>
      match process_route rest with
      | Except.error e => Except.error e
      | Except.ok more => Except.ok (outs ++ more)

/-! ### Helper lemmas -/

/-- The mode-ranges fold, started from any accumulator and any enumeration
offset, appends exactly the ranges selected by `rangesFrom`. -/
theorem foldl_mode_ranges_step (l : List MspModeRange) :
    ∀ (i : Nat) (acc : List ModeRange),
      ((l.enumFrom i).foldl mode_ranges_step acc) = acc ++ rangesFrom i l := by
  induction l with
  | nil => intro i acc; simp [rangesFrom]
  | cons r rest ih =>
    intro i acc
    rw [List.enumFrom_cons, List.foldl_cons]
    by_cases h : r.start_step ≠ 0 ∧ r.end_step ≠ 0
    · simp only [rangesFrom, if_pos h, mode_ranges_step, ih]
      simp
    · simp only [rangesFrom, if_neg h, mode_ranges_step, ih]

/-- `get_mode_ranges_decode` agrees with the structural `rangesFrom 0`. -/
theorem get_mode_ranges_decode_eq (l : List MspModeRange) :
    get_mode_ranges_decode l = rangesFrom 0 l := by
  have := foldl_mode_ranges_step l 0 []
  simpa [get_mode_ranges_decode, List.enum] using this

/-- Membership in `rangesFrom i l`: exactly the slots with both steps
nonzero, tagged with `i +` their position. -/
theorem mem_rangesFrom (l : List MspModeRange) :
    ∀ (i : Nat) (mr : ModeRange),
      mr ∈ rangesFrom i l ↔
        ∃ j r, l[j]? = some r ∧ (r.start_step ≠ 0 ∧ r.end_step ≠ 0) ∧
          mr = modeRangeAt (i + j) r := by
  induction l with
  | nil => intro i mr; simp [rangesFrom]
  | cons a rest ih =>
    intro i mr
    have hstep : i + 0 = i := rfl
    constructor
    · intro hmem
      by_cases h : a.start_step ≠ 0 ∧ a.end_step ≠ 0
      · rw [rangesFrom, if_pos h, List.mem_cons] at hmem
        rcases hmem with rfl | hmem
        · exact ⟨0, a, by simp, h, by simp [hstep]⟩
        · rcases (ih (i + 1) mr).mp hmem with ⟨j, r, hjr, hc, hmr⟩
          refine ⟨j + 1, r, by simpa using hjr, hc, ?_⟩
          have : i + (j + 1) = i + 1 + j := by omega
          rw [this]; exact hmr
      · rw [rangesFrom, if_neg h] at hmem
        rcases (ih (i + 1) mr).mp hmem with ⟨j, r, hjr, hc, hmr⟩
        refine ⟨j + 1, r, by simpa using hjr, hc, ?_⟩
        have : i + (j + 1) = i + 1 + j := by omega
        rw [this]; exact hmr
    · rintro ⟨j, r, hjr, hc, rfl⟩
      cases j with
      | zero =>
        simp only [List.getElem?_cons_zero, Option.some.injEq] at hjr
        subst hjr
        rw [rangesFrom, if_pos hc]
        exact List.mem_cons_self _ _
      | succ j =>
        simp only [List.getElem?_cons_succ] at hjr
        have hmem : modeRangeAt (i + 1 + j) r ∈ rangesFrom (i + 1) rest :=
          (ih (i + 1) _).mpr ⟨j, r, hjr, hc, rfl⟩
        have harith : i + (j + 1) = i + 1 + j := by omega
        rw [rangesFrom]
        by_cases h : a.start_step ≠ 0 ∧ a.end_step ≠ 0
        · rw [if_pos h]; exact List.mem_cons_of_mem _ (harith ▸ hmem)
        · rw [if_neg h]; exact harith ▸ hmem

/-- Every range selected from offset `i` carries an index `≥ i`. -/
theorem rangesFrom_index_ge (l : List MspModeRange) :
    ∀ (i : Nat) (mr : ModeRange), mr ∈ rangesFrom i l → i ≤ mr.index := by
  induction l with
  | nil => intro i mr h; simp [rangesFrom] at h
  | cons a rest ih =>
    intro i mr h
    rw [rangesFrom] at h
    by_cases hc : a.start_step ≠ 0 ∧ a.end_step ≠ 0
    · rw [if_pos hc, List.mem_cons] at h
      rcases h with rfl | h
      · exact Nat.le_refl _
      · exact Nat.le_of_succ_le (ih (i + 1) mr h)
    · rw [if_neg hc] at h
      exact Nat.le_of_succ_le (ih (i + 1) mr h)

/-- The selected ranges appear in strictly ascending slot-index order. -/
theorem rangesFrom_pairwise (l : List MspModeRange) :
    ∀ i : Nat, (rangesFrom i l).Pairwise (fun a b => a.index < b.index) := by
  induction l with
  | nil => intro i; simp [rangesFrom]
  | cons a rest ih =>
    intro i
    rw [rangesFrom]
    by_cases hc : a.start_step ≠ 0 ∧ a.end_step ≠ 0
    · rw [if_pos hc]
      refine List.Pairwise.cons ?_ (ih (i + 1))
      intro b hb
      exact Nat.lt_of_succ_le (rangesFrom_index_ge rest (i + 1) b hb)
    · rw [if_neg hc]; exact ih (i + 1)

/-- One accepted chunk reply: when the session is not exhausted and the reply
is not stale, `read_chunk` sends this iteration's request(s), updates the
state by `accept_reply` and returns `accept_result`. -/
theorem read_chunk_reply_accepted (s : FlashDataFile) (r : MspDataFlashReply)
    (evs : List ChunkEvent)
    (hrun : s.received_address < s.used_size)
    (hacc : s.next_address ≤ r.read_address) :
    read_chunk s (ChunkEvent.reply r :: evs) =
      ⟨ReadChunkResult.ok (accept_result s r), accept_reply s r, send_requests s, 0⟩ := by
  rw [read_chunk, if_neg (Nat.not_le.mpr hrun)]
  rw [read_chunk_go, if_pos hacc]

/-- Whatever the awaited events are, the requests of one `read_chunk` loop
run begin with this iteration's `send_requests`. -/
theorem read_chunk_go_requests_prefix (s : FlashDataFile) (evs : List ChunkEvent) :
    ∃ l, (read_chunk_go s evs).requests = send_requests s ++ l := by
  cases evs with
  | nil => exact ⟨[], by simp [read_chunk_go]⟩
  | cons e rest =>
    cases e with
    | timeout => exact ⟨_, rfl⟩
    | closed => exact ⟨[], by simp [read_chunk_go]⟩
    | reply r =>
      by_cases h : s.next_address ≤ r.read_address
      · exact ⟨[], by rw [read_chunk_go, if_pos h]; simp⟩
      · exact ⟨_, by rw [read_chunk_go, if_neg h]⟩

/-! ### Claim theorems -/

/-- C1 (amended): for every 20-slot mode-ranges reply table,
`get_mode_ranges` returns exactly the slots whose `start_step != 0` AND
`end_step != 0` (the source tests both, not either), each tagged with its
0-based slot index, in strictly ascending index order, and no others. -/
theorem C1_get_mode_ranges_and_filter (table : List MspModeRange)
    (_h : table.length = 20) :
    (∀ mr : ModeRange, mr ∈ get_mode_ranges_decode table ↔
      ∃ j r, table[j]? = some r ∧ (r.start_step ≠ 0 ∧ r.end_step ≠ 0) ∧
        mr = modeRangeAt j r) ∧
    (get_mode_ranges_decode table).Pairwise (fun a b => a.index < b.index) := by
  rw [get_mode_ranges_decode_eq]
  constructor
  · intro mr
    rw [mem_rangesFrom table 0 mr]
    constructor
    · rintro ⟨j, r, hjr, hc, hmr⟩
      exact ⟨j, r, hjr, hc, by simpa using hmr⟩
    · rintro ⟨j, r, hjr, hc, hmr⟩
      exact ⟨j, r, hjr, hc, by simpa using hmr⟩
  · exact rangesFrom_pairwise table 0

/-- C1 counterexample: a 20-slot table whose slot 0 has `start_step = 3`
and `end_step = 0` — so `start_step != 0 OR end_step != 0` holds — decodes
to the empty list: the claim's OR does not match the source's `&&`. -/
theorem C1_counterexample :
    get_mode_ranges_decode (⟨1, 2, 3, 0⟩ :: List.replicate 19 ⟨0, 0, 0, 0⟩) = [] ∧
    (⟨1, 2, 3, 0⟩ : MspModeRange).start_step ≠ 0 ∧
    (⟨1, 2, 3, 0⟩ :: List.replicate 19 (⟨0, 0, 0, 0⟩ : MspModeRange)).length = 20 := by
  decide

/-- C1 witness: the amended theorem applied to a concrete 20-slot table
whose slot 0 is the only slot with both steps nonzero. -/
theorem C1_get_mode_ranges_and_filter_witness :
    ⟨0, 1, 2, 3, 4⟩ ∈ get_mode_ranges_decode (⟨1, 2, 3, 4⟩ :: List.replicate 19 ⟨0, 0, 0, 0⟩) :=
  ((C1_get_mode_ranges_and_filter
      (⟨1, 2, 3, 4⟩ :: List.replicate 19 ⟨0, 0, 0, 0⟩) (by decide)).1
    ⟨0, 1, 2, 3, 4⟩).mpr ⟨0, ⟨1, 2, 3, 4⟩, by decide, by decide, by decide⟩

/-- C2 (amended): the write pump's inner loop exits only on a successful
write: every error — timeout-class or not — leads to the same write being
attempted again (timeout-class errors after a 1 ms sleep, other errors
immediately after reporting); the frame is never abandoned on an error. -/
theorem C2_write_pump_retries_until_success (outs : List WriteOutcome) :
    ((write_until_success outs).finished = true ↔ WriteOutcome.ok ∈ outs) ∧
    (write_until_success outs).attempts =
      (outs.takeWhile (fun o => o != WriteOutcome.ok)).length +
        (if WriteOutcome.ok ∈ outs then 1 else 0) ∧
    (write_until_success outs).sleeps =
      (outs.takeWhile (fun o => o != WriteOutcome.ok)).count WriteOutcome.errTimedOut ∧
    (write_until_success outs).reported =
      (outs.takeWhile (fun o => o != WriteOutcome.ok)).count WriteOutcome.errOther := by
  induction outs with
  | nil => simp [write_until_success]
  | cons o rest ih =>
    obtain ⟨ih1, ih2, ih3, ih4⟩ := ih
    cases o with
    | ok => simp [write_until_success]
    | errTimedOut =>
      refine ⟨by simp [write_until_success, ih1], ?_, ?_, ?_⟩ <;>
        simp [write_until_success, ih1, ih2, ih3, ih4, List.count_cons, Nat.add_comm,
          Nat.add_assoc, Nat.add_left_comm]
    | errOther =>
      refine ⟨by simp [write_until_success, ih1], ?_, ?_, ?_⟩ <;>
        simp [write_until_success, ih1, ih2, ih3, ih4, List.count_cons, Nat.add_comm,
          Nat.add_assoc, Nat.add_left_comm]

/-- C2 witness: the amended theorem applied to the attempt-outcome list
"non-timeout error, then success". -/
theorem C2_write_pump_retries_until_success_witness :
    ((write_until_success [WriteOutcome.errOther, WriteOutcome.ok]).finished = true ↔
      WriteOutcome.ok ∈ [WriteOutcome.errOther, WriteOutcome.ok]) ∧
    (write_until_success [WriteOutcome.errOther, WriteOutcome.ok]).attempts =
      ([WriteOutcome.errOther, WriteOutcome.ok].takeWhile
          (fun o => o != WriteOutcome.ok)).length +
        (if WriteOutcome.ok ∈ [WriteOutcome.errOther, WriteOutcome.ok] then 1 else 0) ∧
    (write_until_success [WriteOutcome.errOther, WriteOutcome.ok]).sleeps =
      ([WriteOutcome.errOther, WriteOutcome.ok].takeWhile
          (fun o => o != WriteOutcome.ok)).count WriteOutcome.errTimedOut ∧
    (write_until_success [WriteOutcome.errOther, WriteOutcome.ok]).reported =
      ([WriteOutcome.errOther, WriteOutcome.ok].takeWhile
          (fun o => o != WriteOutcome.ok)).count WriteOutcome.errOther :=
  C2_write_pump_retries_until_success [WriteOutcome.errOther, WriteOutcome.ok]

/-- C2 counterexample: after a non-timeout write error followed by a
success, the source loop has performed two attempts of the same write
(it retried after the non-timeout error), whereas the loop the claim
describes performs one attempt and moves on. -/
theorem C2_counterexample :
    (write_until_success [WriteOutcome.errOther, WriteOutcome.ok]).attempts = 2 ∧
    (write_until_success [WriteOutcome.errOther]).finished = false ∧
    (write_until_success_claimed [WriteOutcome.errOther, WriteOutcome.ok]).attempts = 1 ∧
    (write_until_success_claimed [WriteOutcome.errOther]).finished = true := by
  decide

/-- C3 (amended): streaming `used_size = 5000` with the fixed `0x1000`
window.  The first call requests address 0 and, on a 4096-byte reply at 0,
returns it leaving `received_address = 0`, `next_address = 4096`.  The
second call requests address 4096 and, on a 904-byte reply, returns it —
`received_address` becomes 4096 (not 5000) and `next_address` 5000.  The
third call requests address 5000 and returns the empty end-of-stream result
only upon a further reply at address ≥ 5000 (here an empty reply at 5000),
which sets `received_address = 5000`.  A fourth call fails with the
use-after-close error. -/
theorem C3_streaming_scenario :
    read_chunk ⟨5000, 0, 0⟩ [ChunkEvent.reply ⟨0, List.replicate 4096 7⟩] =
      ⟨ReadChunkResult.ok (List.replicate 4096 7), ⟨5000, 4096, 0⟩, [⟨0, 4096⟩], 0⟩ ∧
    read_chunk ⟨5000, 4096, 0⟩ [ChunkEvent.reply ⟨4096, List.replicate 904 9⟩] =
      ⟨ReadChunkResult.ok (List.replicate 904 9), ⟨5000, 5000, 4096⟩, [⟨4096, 4096⟩], 0⟩ ∧
    read_chunk ⟨5000, 5000, 4096⟩ [ChunkEvent.reply ⟨5000, []⟩] =
      ⟨ReadChunkResult.ok [], ⟨5000, 5000, 5000⟩, [⟨5000, 4096⟩], 0⟩ ∧
    read_chunk ⟨5000, 5000, 5000⟩ [] =
      ⟨ReadChunkResult.useAfterClose, ⟨5000, 5000, 5000⟩, [], 0⟩ := by
  refine ⟨?_, ?_, ?_, ?_⟩
  · rw [read_chunk_reply_accepted _ _ _ (by norm_num) (by norm_num)]
    have h1 : accept_reply ⟨5000, 0, 0⟩ ⟨0, List.replicate 4096 7⟩ = ⟨5000, 4096, 0⟩ := by
      simp only [accept_reply, List.length_replicate]
      norm_num [U32]
    have h2 : accept_result ⟨5000, 0, 0⟩ ⟨0, List.replicate 4096 7⟩ = List.replicate 4096 7 := by
      rw [accept_result, if_neg]
      rw [h1]
      norm_num
    have h3 : send_requests ⟨5000, 0, 0⟩ = [⟨0, 0x1000⟩] := by
      rw [send_requests, if_pos (Or.inr rfl)]
    rw [h1, h2, h3]
  · rw [read_chunk_reply_accepted _ _ _ (by norm_num) (by norm_num)]
    have h1 : accept_reply ⟨5000, 4096, 0⟩ ⟨4096, List.replicate 904 9⟩ = ⟨5000, 5000, 4096⟩ := by
      simp only [accept_reply, List.length_replicate]
      norm_num [U32]
    have h2 : accept_result ⟨5000, 4096, 0⟩ ⟨4096, List.replicate 904 9⟩ =
        List.replicate 904 9 := by
      rw [accept_result, if_neg]
      rw [h1]
      norm_num
    have h3 : send_requests ⟨5000, 4096, 0⟩ = [⟨4096, 0x1000⟩] := by
      rw [send_requests, if_pos (Or.inl (by norm_num))]
    rw [h1, h2, h3]
  · rw [read_chunk_reply_accepted _ _ _ (by norm_num) (by norm_num)]
    have h1 : accept_reply ⟨5000, 5000, 4096⟩ ⟨5000, []⟩ = ⟨5000, 5000, 5000⟩ := by
      simp only [accept_reply, List.length_nil]
      norm_num [U32]
    have h2 : accept_result ⟨5000, 5000, 4096⟩ ⟨5000, []⟩ = [] := by
      rw [accept_result, if_pos]
      rw [h1]
    have h3 : send_requests ⟨5000, 5000, 4096⟩ = [⟨5000, 0x1000⟩] := by
      rw [send_requests, if_pos (Or.inl (by norm_num))]
    rw [h1, h2, h3]
  · rfl

/-- C3 counterexample: upon the 904-byte reply at address 4096 the session's
`received_address` is 4096, not 5000 as the claim states (the source stores
the reply's start address, not its end); and a third call with no further
device reply does not return — it issues a new request at 5000 and keeps
awaiting. -/
theorem C3_counterexample :
    (read_chunk ⟨5000, 4096, 0⟩ [ChunkEvent.reply ⟨4096, List.replicate 904 9⟩]).state.received_address
        = 4096 ∧
    (read_chunk ⟨5000, 4096, 0⟩ [ChunkEvent.reply ⟨4096, List.replicate 904 9⟩]).state.received_address
        ≠ 5000 ∧
    (read_chunk ⟨5000, 5000, 4096⟩ []).result = ReadChunkResult.pending ∧
    (read_chunk ⟨5000, 5000, 4096⟩ []).requests = [⟨5000, 4096⟩] := by
  exact ⟨by decide, by decide, by decide, by decide⟩

/-- C4 (amended): a reply whose `read_address` is below `next_address` is
discarded as stale — result, final state and parser resets are as if the
reply had never arrived — but before awaiting the channel again the loop
re-issues the chunk-read request at `next_address` (the send condition
still holds), so the stale reply costs one extra request, not none. -/
theorem C4_stale_reply_reissues (s : FlashDataFile) (r : MspDataFlashReply)
    (evs : List ChunkEvent)
    (hrun : s.received_address < s.used_size)
    (hstale : r.read_address < s.next_address)
    (hsend : s.received_address < s.next_address ∨ s.next_address = 0) :
    (read_chunk s (ChunkEvent.reply r :: evs)).result = (read_chunk s evs).result ∧
    (read_chunk s (ChunkEvent.reply r :: evs)).state = (read_chunk s evs).state ∧
    (read_chunk s (ChunkEvent.reply r :: evs)).parser_resets =
      (read_chunk s evs).parser_resets ∧
    (read_chunk s (ChunkEvent.reply r :: evs)).requests =
      ⟨s.next_address, 0x1000⟩ :: (read_chunk s evs).requests ∧
    (read_chunk s evs).requests.head? = some ⟨s.next_address, 0x1000⟩ := by
  have hns : send_requests s = [⟨s.next_address, 0x1000⟩] := by
    rw [send_requests, if_pos hsend]
  have hnotle : ¬ s.next_address ≤ r.read_address := Nat.not_le.mpr hstale
  rw [read_chunk, if_neg (Nat.not_le.mpr hrun), read_chunk, if_neg (Nat.not_le.mpr hrun)]
  rw [read_chunk_go, if_neg hnotle]
  obtain ⟨l, hl⟩ := read_chunk_go_requests_prefix s evs
  refine ⟨rfl, rfl, rfl, by simp [hns], ?_⟩
  rw [hl, hns]
  rfl

/-- C4 counterexample: in the session state reached after the first 4096-byte
chunk (`next_address = 4096`, `received_address = 0`), a stale duplicate
reply at address 0 is discarded, but the loop then sends a second request at
4096 before awaiting again — two requests in the trace, where the claim
says the discarded reply triggers no new request. -/
theorem C4_counterexample :
    (read_chunk ⟨5000, 4096, 0⟩ [ChunkEvent.reply ⟨0, [1]⟩]).requests =
      [⟨4096, 4096⟩, ⟨4096, 4096⟩] := by
  decide

/-- C4 witness: the amended theorem applied to the session state
`⟨used 5000, next 4096, received 0⟩` with a stale reply at address 0 and no
further events. -/
theorem C4_stale_reply_reissues_witness :
    (read_chunk ⟨5000, 4096, 0⟩ [ChunkEvent.reply ⟨0, [1]⟩]).result =
      (read_chunk ⟨5000, 4096, 0⟩ []).result ∧
    (read_chunk ⟨5000, 4096, 0⟩ [ChunkEvent.reply ⟨0, [1]⟩]).state =
      (read_chunk ⟨5000, 4096, 0⟩ []).state ∧
    (read_chunk ⟨5000, 4096, 0⟩ [ChunkEvent.reply ⟨0, [1]⟩]).parser_resets =
      (read_chunk ⟨5000, 4096, 0⟩ []).parser_resets ∧
    (read_chunk ⟨5000, 4096, 0⟩ [ChunkEvent.reply ⟨0, [1]⟩]).requests =
      ⟨4096, 0x1000⟩ :: (read_chunk ⟨5000, 4096, 0⟩ []).requests ∧
    (read_chunk ⟨5000, 4096, 0⟩ []).requests.head? = some ⟨4096, 0x1000⟩ :=
  C4_stale_reply_reissues ⟨5000, 4096, 0⟩ ⟨0, [1]⟩ []
    (by norm_num) (by norm_num) (Or.inl (by norm_num))

/-- C5 (amended): the session built by `open_flash_data` satisfies
`received_address ≤ next_address ≤ used_size`, and the accepted-reply
update preserves `received_address ≤ next_address` whenever
`read_address + payload length` does not overflow `u32`; the upper bound
`next_address ≤ used_size` is NOT preserved (see the counterexample). -/
theorem C5_received_le_next (o : RecvOutcome MspDataFlashSummaryReply)
    (f : FlashDataFile) (hopen : open_flash_data o = Except.ok f)
    (s : FlashDataFile) (r : MspDataFlashReply)
    (hof : r.read_address + r.payload.length < U32) :
    (f.received_address ≤ f.next_address ∧ f.next_address ≤ f.used_size) ∧
    (accept_reply s r).received_address ≤ (accept_reply s r).next_address := by
  constructor
  · cases o with
    | timedOut => simp [open_flash_data, flash_summary] at hopen
    | closed => simp [open_flash_data, flash_summary] at hopen
    | value v =>
      simp only [open_flash_data, flash_summary, Except.ok.injEq] at hopen
      rw [← hopen]
      exact ⟨Nat.le_refl 0, Nat.zero_le _⟩
  · have hlen : r.payload.length < U32 := by omega
    simp only [accept_reply]
    rw [Nat.mod_eq_of_lt hlen, Nat.mod_eq_of_lt hof]
    exact Nat.le_add_right _ _

/-- C5 witness: the amended theorem applied to a session opened from a
summary with `used_size_bytes = 10` and a 1-byte reply at address 0. -/
theorem C5_received_le_next_witness :
    (((⟨10, 0, 0⟩ : FlashDataFile).received_address ≤ (⟨10, 0, 0⟩ : FlashDataFile).next_address ∧
      (⟨10, 0, 0⟩ : FlashDataFile).next_address ≤ (⟨10, 0, 0⟩ : FlashDataFile).used_size) ∧
    (accept_reply ⟨10, 0, 0⟩ ⟨0, [1]⟩).received_address ≤
      (accept_reply ⟨10, 0, 0⟩ ⟨0, [1]⟩).next_address) :=
  C5_received_le_next (RecvOutcome.value ⟨true, true, 4, 20, 10⟩) ⟨10, 0, 0⟩ (by decide)
    ⟨10, 0, 0⟩ ⟨0, [1]⟩ (by norm_num [U32])

/-- C5 counterexample: from the reachable, invariant-satisfying state
`⟨used 10, next 4, received 0⟩`, an accepted 7-byte reply at address 4
leaves `next_address = 11 > used_size = 10` while the call succeeds and
streaming continues — the invariant `next_address ≤ used_size` is not
preserved by the update. -/
theorem C5_counterexample :
    ((⟨10, 4, 0⟩ : FlashDataFile).received_address ≤ (⟨10, 4, 0⟩ : FlashDataFile).next_address ∧
      (⟨10, 4, 0⟩ : FlashDataFile).next_address ≤ (⟨10, 4, 0⟩ : FlashDataFile).used_size) ∧
    read_chunk ⟨10, 4, 0⟩ [ChunkEvent.reply ⟨4, [1, 1, 1, 1, 1, 1, 1]⟩] =
      ⟨ReadChunkResult.ok [1, 1, 1, 1, 1, 1, 1], ⟨10, 11, 4⟩, [⟨4, 4096⟩], 0⟩ ∧
    ¬((11 : Nat) ≤ (⟨10, 4, 0⟩ : FlashDataFile).used_size) := by
  decide

/-- C6 (amended): while a request is outstanding (the send condition
`next_address > received_address ∨ next_address = 0` holds, as it does in
every state in which this call has just issued a request), `k` consecutive
50 ms timeouts cause exactly `k` parser resets and `k + 1` identical
requests at the same `next_address`, the state is unchanged and the call is
still pending — no number of timeouts produces an error.  (In the corner
state `next_address = received_address ≠ 0`, reachable via an accepted
empty reply, the parser is still reset but no request is re-issued.) -/
theorem C6_timeout_resets_and_retries (s : FlashDataFile) (k : Nat)
    (hrun : s.received_address < s.used_size)
    (hsend : s.received_address < s.next_address ∨ s.next_address = 0) :
    read_chunk s (List.replicate k ChunkEvent.timeout) =
      ⟨ReadChunkResult.pending, s, List.replicate (k + 1) ⟨s.next_address, 0x1000⟩, k⟩ := by
  have hns : send_requests s = [⟨s.next_address, 0x1000⟩] := by
    rw [send_requests, if_pos hsend]
  rw [read_chunk, if_neg (Nat.not_le.mpr hrun)]
  induction k with
  | zero =>
    rw [show List.replicate 0 ChunkEvent.timeout = [] from rfl, read_chunk_go, hns]
    rfl
  | succ k ih =>
    rw [List.replicate_succ]
    simp only [read_chunk_go, ih, hns]
    simp [List.replicate_succ]

/-- C6 witness: the amended theorem applied to a fresh session
(`used 100`, `next 0`, `received 0`) and two consecutive timeouts. -/
theorem C6_timeout_resets_and_retries_witness :
    read_chunk ⟨100, 0, 0⟩ (List.replicate 2 ChunkEvent.timeout) =
      ⟨ReadChunkResult.pending, ⟨100, 0, 0⟩, List.replicate 3 ⟨0, 0x1000⟩, 2⟩ :=
  C6_timeout_resets_and_retries ⟨100, 0, 0⟩ 2 (by norm_num) (Or.inr rfl)

/-- C6 counterexample: the state `⟨used 100, next 5, received 5⟩` is reached
by accepting an empty reply at address 5; in it, a timeout still resets the
parser but `read_chunk` issues NO request at all — the claim's "re-issues
the chunk-read request at the same next_address" fails there.  (The
never-errors half of the claim does hold; see the amended theorem.) -/
theorem C6_counterexample :
    read_chunk ⟨100, 0, 0⟩ [ChunkEvent.reply ⟨5, []⟩] =
      ⟨ReadChunkResult.ok [], ⟨100, 5, 5⟩, [⟨0, 4096⟩], 0⟩ ∧
    (read_chunk ⟨100, 5, 5⟩ [ChunkEvent.timeout]).parser_resets = 1 ∧
    (read_chunk ⟨100, 5, 5⟩ [ChunkEvent.timeout]).requests = [] ∧
    (read_chunk ⟨100, 5, 5⟩ [ChunkEvent.timeout]).result = ReadChunkResult.pending := by
  decide

/-- C7 (confirmed): each facade call returns the `TimedOut` error exactly
when its 30 ms wait on the dedicated reply channel yields no value, and
returns `Ok` with the arrived value otherwise (`Ok(())` for
`set_mode_range`, the decoded table for `get_mode_ranges`).  The
closed-channel outcome is excluded by hypothesis: it cannot occur live,
because the `INavMsp` struct itself retains a send half of every reply
channel, so `recv` can never observe all senders dropped during a call. -/
theorem C7_facade_timeout_iff
    (os : RecvOutcome MspDataFlashSummaryReply) (hs : os ≠ RecvOutcome.closed)
    (mode : ModeRange) (oa : RecvOutcome Unit) (ha : oa ≠ RecvOutcome.closed)
    (om : RecvOutcome (List MspModeRange)) (hm : om ≠ RecvOutcome.closed) :
    ((flash_summary os = Except.error FacadeError.timedOut ↔ os = RecvOutcome.timedOut) ∧
      ∀ v, os = RecvOutcome.value v → flash_summary os = Except.ok v) ∧
    ((set_mode_range mode oa = Except.error FacadeError.timedOut ↔
        oa = RecvOutcome.timedOut) ∧
      (oa = RecvOutcome.value () → set_mode_range mode oa = Except.ok ())) ∧
    ((get_mode_ranges om = Except.error FacadeError.timedOut ↔
        om = RecvOutcome.timedOut) ∧
      ∀ v, om = RecvOutcome.value v → get_mode_ranges om = Except.ok (get_mode_ranges_decode v)) := by
  refine ⟨⟨?_, ?_⟩, ⟨?_, ?_⟩, ⟨?_, ?_⟩⟩
  · cases os <;> simp_all [flash_summary]
  · rintro v rfl; rfl
  · cases oa <;> simp_all [set_mode_range]
  · rintro rfl; rfl
  · cases om <;> simp_all [get_mode_ranges]
  · rintro v rfl; rfl

/-- C7 witness: the theorem applied to a timed-out summary wait, an arrived
set-mode-range ack, and an arrived (all-zero) mode-ranges table. -/
theorem C7_facade_timeout_iff_witness :
    ((flash_summary RecvOutcome.timedOut = Except.error FacadeError.timedOut ↔
        (RecvOutcome.timedOut : RecvOutcome MspDataFlashSummaryReply) = RecvOutcome.timedOut) ∧
      ∀ v, (RecvOutcome.timedOut : RecvOutcome MspDataFlashSummaryReply) = RecvOutcome.value v →
        flash_summary RecvOutcome.timedOut = Except.ok v) ∧
    ((set_mode_range ⟨0, 1, 2, 3, 4⟩ (RecvOutcome.value ()) = Except.error FacadeError.timedOut ↔
        RecvOutcome.value () = RecvOutcome.timedOut) ∧
      (RecvOutcome.value () = RecvOutcome.value () →
        set_mode_range ⟨0, 1, 2, 3, 4⟩ (RecvOutcome.value ()) = Except.ok ())) ∧
    ((get_mode_ranges (RecvOutcome.value (List.replicate 20 (⟨0, 0, 0, 0⟩ : MspModeRange))) =
          Except.error FacadeError.timedOut ↔
        RecvOutcome.value (List.replicate 20 (⟨0, 0, 0, 0⟩ : MspModeRange)) = RecvOutcome.timedOut) ∧
      ∀ v, RecvOutcome.value (List.replicate 20 (⟨0, 0, 0, 0⟩ : MspModeRange)) = RecvOutcome.value v →
        get_mode_ranges (RecvOutcome.value (List.replicate 20 (⟨0, 0, 0, 0⟩ : MspModeRange))) =
          Except.ok (get_mode_ranges_decode v)) :=
  C7_facade_timeout_iff RecvOutcome.timedOut (by decide) ⟨0, 1, 2, 3, 4⟩
    (RecvOutcome.value ()) (fun h => RecvOutcome.noConfusion h)
    (RecvOutcome.value (List.replicate 20 (⟨0, 0, 0, 0⟩ : MspModeRange))) (fun h => RecvOutcome.noConfusion h)

/-- C8 (amended): an accepted reply yields the empty successful result
exactly when the stream is exhausted (`read_address ≥ used_size`) OR the
accepted reply's payload is itself empty; an accepted non-empty payload
below `used_size` is returned as is.  (An empty accepted reply below
`used_size` returns an empty result without the stream being at
end-of-stream — so "empty iff end-of-stream" fails as stated.) -/
theorem C8_empty_result_iff (s : FlashDataFile) (r : MspDataFlashReply)
    (evs : List ChunkEvent)
    (hrun : s.received_address < s.used_size)
    (hacc : s.next_address ≤ r.read_address) :
    ((read_chunk s (ChunkEvent.reply r :: evs)).result = ReadChunkResult.ok [] ↔
      (s.used_size ≤ r.read_address ∨ r.payload = [])) ∧
    (r.payload ≠ [] → r.read_address < s.used_size →
      (read_chunk s (ChunkEvent.reply r :: evs)).result = ReadChunkResult.ok r.payload) := by
  rw [read_chunk_reply_accepted s r evs hrun hacc]
  have hrecv : (accept_reply s r).received_address = r.read_address := rfl
  constructor
  · by_cases h : s.used_size ≤ r.read_address
    · rw [accept_result, if_pos (by rw [hrecv]; exact h)]
      simp [h]
    · rw [accept_result, if_neg (by rw [hrecv]; exact h)]
      simp [h]
  · intro hpay hlt
    rw [accept_result, if_neg (by rw [hrecv]; exact Nat.not_le.mpr hlt)]

/-- C8 witness: the amended theorem applied to a fresh session of
`used_size = 100` and an accepted 2-byte reply at address 0. -/
theorem C8_empty_result_iff_witness :
    ((read_chunk ⟨100, 0, 0⟩ [ChunkEvent.reply ⟨0, [1, 2]⟩]).result = ReadChunkResult.ok [] ↔
      ((100 : Nat) ≤ 0 ∨ ([1, 2] : List Nat) = [])) ∧
    (([1, 2] : List Nat) ≠ [] → (0 : Nat) < 100 →
      (read_chunk ⟨100, 0, 0⟩ [ChunkEvent.reply ⟨0, [1, 2]⟩]).result =
        ReadChunkResult.ok [1, 2]) :=
  C8_empty_result_iff ⟨100, 0, 0⟩ ⟨0, [1, 2]⟩ [] (by norm_num) (Nat.zero_le 0)

/-- C8 counterexample: an accepted empty reply at address 0 in a session of
`used_size = 100` makes `read_chunk` return the empty success result while
`received_address = 0 < 100` — an empty result without end-of-stream, so
the claimed "empty iff end-of-stream" equivalence (and the claimed
non-emptiness of mid-stream payloads) is false. -/
theorem C8_counterexample :
    (read_chunk ⟨100, 0, 0⟩ [ChunkEvent.reply ⟨0, []⟩]).result = ReadChunkResult.ok [] ∧
    (read_chunk ⟨100, 0, 0⟩ [ChunkEvent.reply ⟨0, []⟩]).state.received_address = 0 ∧
    ¬((read_chunk ⟨100, 0, 0⟩ [ChunkEvent.reply ⟨0, []⟩]).state.used_size ≤
        (read_chunk ⟨100, 0, 0⟩ [ChunkEvent.reply ⟨0, []⟩]).state.received_address) := by
  decide

/-- C9 (amended): a recognized frame whose payload fails to decode panics
the routing task instead of being a recoverable per-frame error: the
router's result on any frame sequence beginning with such a frame is the
panic, independent of the remaining frames — none of them is processed.
Concretely, a dataflash-read reply shorter than 4 bytes and a mode-ranges
reply whose payload is not exactly 80 bytes both panic. -/
theorem C9_decode_failure_panics
    (p : MspPacket) (rest : List MspPacket) (e : RoutePanic)
    (hp : route_packet p = Except.error e)
    (q : MspPacket) (hq1 : q.direction = MspPacketDirection.fromFlightController)
    (hq2 : q.cmd = MSP_DATAFLASH_READ) (hq3 : q.data.length < 4)
    (m : MspPacket) (hm1 : m.direction = MspPacketDirection.fromFlightController)
    (hm2 : m.cmd = MSP_MODE_RANGES) (hm3 : m.data.length ≠ 80) :
    process_route (p :: rest) = Except.error e ∧
    route_packet q = Except.error RoutePanic.chunkTooShort ∧
    route_packet m = Except.error RoutePanic.modeRangesUnpack := by
  refine ⟨?_, ?_, ?_⟩
  · rw [process_route, hp]
  · have hchunk : route_chunk q = Except.error RoutePanic.chunkTooShort := by
      rw [route_chunk, if_pos hq2]
      match hd : q.data with
      | [] => rfl
      | [_] => rfl
      | [_, _] => rfl
      | [_, _, _] => rfl
      | _ :: _ :: _ :: _ :: _ =>
        rw [hd] at hq3
        simp only [List.length_cons] at hq3
        omega
    have h34 : q.cmd ≠ MSP_MODE_RANGES := by
      rw [hq2]; simp [MSP_DATAFLASH_READ, MSP_MODE_RANGES]
    have h35 : q.cmd ≠ MSP_SET_MODE_RANGE := by
      rw [hq2]; simp [MSP_DATAFLASH_READ, MSP_SET_MODE_RANGE]
    have h70 : q.cmd ≠ MSP_DATAFLASH_SUMMARY := by
      rw [hq2]; simp [MSP_DATAFLASH_READ, MSP_DATAFLASH_SUMMARY]
    rw [route_packet, if_neg (by simp [hq1])]
    rw [route_mode_ranges, if_neg h34, route_ack, if_neg h35,
      route_summary, if_neg h70, hchunk]
  · have hmr : route_mode_ranges m = Except.error RoutePanic.modeRangesUnpack := by
      rw [route_mode_ranges, if_pos hm2, unpack_mode_ranges, if_neg hm3]
    rw [route_packet, if_neg (by simp [hm1]), hmr]

/-- C9 witness: the theorem applied to a mode-ranges reply with an empty
payload (decode fails, the router panics and the following well-formed
set-mode-range ack frame is never routed), a 2-byte dataflash-read reply,
and a 1-byte mode-ranges reply. -/
theorem C9_decode_failure_panics_witness :
    process_route [⟨34, MspPacketDirection.fromFlightController, []⟩,
        ⟨35, MspPacketDirection.fromFlightController, []⟩] =
      Except.error RoutePanic.modeRangesUnpack ∧
    route_packet ⟨71, MspPacketDirection.fromFlightController, [0, 0]⟩ =
      Except.error RoutePanic.chunkTooShort ∧
    route_packet ⟨34, MspPacketDirection.fromFlightController, [1]⟩ =
      Except.error RoutePanic.modeRangesUnpack :=
  C9_decode_failure_panics
    ⟨34, MspPacketDirection.fromFlightController, []⟩
    [⟨35, MspPacketDirection.fromFlightController, []⟩]
    RoutePanic.modeRangesUnpack (by decide)
    ⟨71, MspPacketDirection.fromFlightController, [0, 0]⟩ rfl rfl (by decide)
    ⟨34, MspPacketDirection.fromFlightController, [1]⟩ rfl rfl (by decide)

/-- C9 counterexample: a recognized mode-ranges frame with an undecodable
(empty) payload panics the routing task, so a subsequent well-formed frame
is not processed; routed alone, that subsequent frame would have produced
the set-mode-range ack. -/
theorem C9_counterexample :
    process_route [⟨34, MspPacketDirection.fromFlightController, []⟩,
        ⟨35, MspPacketDirection.fromFlightController, []⟩] =
      Except.error RoutePanic.modeRangesUnpack ∧
    process_route [⟨35, MspPacketDirection.fromFlightController, []⟩] =
      Except.ok [RouteOutput.setModeRangeAck] := by
  exact ⟨by decide, by decide⟩

/-- C10 (confirmed): `open_flash_data` performs the summary fetch itself and
`unwrap`s it — a timed-out (or closed-channel) summary wait panics rather
than returning an error — and it returns a session handle exactly when
`flash_summary` succeeds, with `used_size` the summary's `used_size_bytes`
and both addresses zero. -/
theorem C10_open_flash_data_unwraps :
    open_flash_data RecvOutcome.timedOut = Except.error FacadeError.panicked ∧
    open_flash_data RecvOutcome.closed = Except.error FacadeError.panicked ∧
    (∀ v : MspDataFlashSummaryReply,
      open_flash_data (RecvOutcome.value v) = Except.ok ⟨v.used_size_bytes, 0, 0⟩) ∧
    (∀ (o : RecvOutcome MspDataFlashSummaryReply) (f : FlashDataFile),
      open_flash_data o = Except.ok f →
        ∃ v, flash_summary o = Except.ok v ∧ f = ⟨v.used_size_bytes, 0, 0⟩) := by
  refine ⟨rfl, rfl, fun v => rfl, fun o f h => ?_⟩
  cases o with
  | timedOut => exact absurd h (by simp [open_flash_data, flash_summary])
  | closed => exact absurd h (by simp [open_flash_data, flash_summary])
  | value v =>
    refine ⟨v, rfl, ?_⟩
    simpa [open_flash_data, flash_summary] using h.symm

/-- C10 witness: the theorem applied to an arrived summary with
`used_size_bytes = 10` and to the timed-out wait. -/
theorem C10_open_flash_data_unwraps_witness :
    open_flash_data (RecvOutcome.value ⟨true, true, 4, 20, 10⟩) = Except.ok ⟨10, 0, 0⟩ ∧
    open_flash_data RecvOutcome.timedOut = Except.error FacadeError.panicked :=
  ⟨C10_open_flash_data_unwraps.2.2.1 ⟨true, true, 4, 20, 10⟩,
    C10_open_flash_data_unwraps.1⟩

end InavMsp
